import Mathlib

/- Verification of the credential-resolution and query-execution logic of
   src/streamlit_app.py and src/snowflake_client.py, as a shallow embedding.

   Conventions of the embedding:
   * Values held by the Streamlit secrets store are modelled by `PyVal`
     (strings, insertion-ordered tables, None).
   * Python exceptions are modelled by `PyErr`; fallible Python expressions
     become `Except PyErr _` values.
   * The secrets store `st.secrets` is an `Except PyErr` of a top-level
     table: the error case models a store whose every access raises
     (e.g. a malformed secrets.toml, which Streamlit parses lazily on
     first access).
   * The process environment is a partial map from variable names to
     strings (`os.getenv` returns None for unset variables). -/

set_option maxRecDepth 4000

/-- Python-like values stored in the Streamlit secrets store: strings,
nested tables (insertion-ordered association lists), and None. -/
inductive PyVal where
  | pstr (s : String)
  | pdict (entries : List (String × PyVal))
  | pnone

/-- Python exception outcomes relevant to the embedded code. -/
inductive PyErr where
  | keyError
  | typeError
  | valueError
  | attributeError
  | stopIteration
  | parseError
  | sqlError (msg : String)
  | connectError (msg : String)
  | runtimeError (msg : String)

/-- First binding of a key in an insertion-ordered table (Python dict
lookup; Python dicts cannot hold duplicate keys, so on well-formed input
this is the unique binding). -/
def lookupVal : List (String × PyVal) → String → Option PyVal
  | [], _ => none
  | (k, v) :: rest, key => if k == key then some v else lookupVal rest key

/-- Python membership test `needle in v`: key membership on tables,
substring containment on strings, raises TypeError on None. -/
def pyContains (v : PyVal) (needle : String) : Except PyErr Bool :=
  match v with
  | .pdict d => .ok (d.any (fun p => p.1 == needle))
  | .pstr s => .ok (!((s.splitOn needle).length == 1))
  | .pnone => .error .typeError

/-- Python indexing `v[key]`: raises KeyError when the key is missing and
TypeError when `v` is not a table. -/
def pyGetItem (v : PyVal) (key : String) : Except PyErr PyVal :=
  match v with
  | .pdict d =>
    match lookupVal d key with
    | some x => .ok x
    | none => .error .keyError
  | .pstr _ => .error .typeError
  | .pnone => .error .typeError

/-- Python `dict(v)`: identity on tables, raises otherwise. -/
def pyToDict (v : PyVal) : Except PyErr (List (String × PyVal)) :=
  match v with
  | .pdict d => .ok d
  | .pstr _ => .error .valueError
  | .pnone => .error .typeError

/-- Python `v.keys()`: the key list of a table, raises AttributeError on
anything that is not a table. -/
def pyKeysMethod (v : PyVal) : Except PyErr (List String) :=
  match v with
  | .pdict d => .ok (d.map Prod.fst)
  | .pstr _ => .error .attributeError
  | .pnone => .error .attributeError

/-- Python truthiness of a value. -/
def pyTruthy : PyVal → Bool
  | .pdict d => !d.isEmpty
  | .pstr s => !(s == "")
  | .pnone => false

/-- Python `d.get(key)` on a table already known to be a dict: the bound
value, or None when absent. -/
def dictGet (d : List (String × PyVal)) (key : String) : PyVal :=
  match lookupVal d key with
  | some v => v
  | none => .pnone

/-- Python `next(iter(d.values()))`: the first value of a table in
insertion order; raises StopIteration on an empty table. -/
def firstDictValue (d : List (String × PyVal)) : Except PyErr PyVal :=
  match d with
  | (_, v) :: _ => .ok v
  | [] => .error .stopIteration

/-- The Streamlit secrets store `st.secrets`: a parsed top-level table,
or a store whose every access raises. -/
abbrev Secrets := Except PyErr (List (String × PyVal))

/-- Access `list(st.secrets.keys())`. -/
def secretsKeys (s : Secrets) : Except PyErr (List String) :=
  match s with
  | .ok d => .ok (d.map Prod.fst)
  | .error e => .error e

/-- Access `key in st.secrets`. -/
def secretsContains (s : Secrets) (key : String) : Except PyErr Bool :=
  match s with
  | .ok d => .ok (d.any (fun p => p.1 == key))
  | .error e => .error e

/-- Access `st.secrets[key]`. -/
def secretsGet (s : Secrets) (key : String) : Except PyErr PyVal :=
  match s with
  | .ok d =>
    match lookupVal d key with
    | some v => .ok v
    | none => .error .keyError
  | .error e => .error e

/-- The process environment as seen by `os.getenv`. -/
abbrev Env := String → Option String

/-- Value of `os.getenv(k)` as a Python value: a string or None. -/
def getenv (env : Env) (k : String) : PyVal :=
  match env k with
  | some s => .pstr s
  | none => .pnone

/-- The `env` dict built by tier 3 of `_get_secrets` in both files
(streamlit_app.py lines 38-46, snowflake_client.py lines 24-32). -/
def env_record (env : Env) : List (String × PyVal) :=
  [("user", getenv env "SNOWFLAKE_USER"),
   ("password", getenv env "SNOWFLAKE_PASSWORD"),
   ("account", getenv env "SNOWFLAKE_ACCOUNT"),
   ("warehouse", getenv env "SNOWFLAKE_WAREHOUSE"),
   ("database", getenv env "SNOWFLAKE_DATABASE"),
   ("schema", getenv env "SNOWFLAKE_SCHEMA"),
   ("role", getenv env "SNOWFLAKE_ROLE")]

/-- Tier 3 of both resolvers: build the env dict and accept it iff the
user, password and account entries are all truthy
(streamlit_app.py line 47 / snowflake_client.py line 33). -/
def tier3 (env : Env) : Option (List (String × PyVal)) :=
  let e := env_record env
  if pyTruthy (dictGet e "user") && pyTruthy (dictGet e "password") &&
      pyTruthy (dictGet e "account") then
    some e
  else
    none

/-- Spec-side predicate: the environment variable `k` is set and
non-empty. -/
def envVarTruthy (env : Env) (k : String) : Bool :=
  match env k with
  | some s => !(s == "")
  | none => false

/-- A single-quote character, as used by Python repr of strings. -/
def squote : String := String.singleton (Char.ofNat 39)

/-- Python repr of a string (keys contain no characters needing escape). -/
def pyRepr (s : String) : String := squote ++ s ++ squote

/-- Python rendering of a list of strings inside an f-string, as in
`f"... {available_keys} ..."`. -/
def pyReprStrList (ks : List String) : String :=
  "[" ++ String.intercalate ", " (ks.map pyRepr) ++ "]"

/-- The shared tail of both failure messages. -/
def provide_msg : String :=
  "Provide `st.secrets[" ++ squote ++ "snowflake" ++ squote ++ "]`, `st.secrets[" ++
    squote ++ "connections" ++ squote ++ "][" ++ squote ++ "snowflake" ++ squote ++
    "]`, or environment variables."

/-- Failure message of snowflake_client._get_secrets (lines 36-38): a
fixed string. -/
def client_err_msg : String :=
  "Snowflake credentials not found. " ++ provide_msg

/-- Failure message of streamlit_app._get_secrets (lines 50-52):
interpolates the list of available top-level secret keys. -/
def app_err_msg (availableKeys : List String) : String :=
  "Snowflake credentials not found. Available secret keys: " ++
    pyReprStrList availableKeys ++ ". " ++ provide_msg

/-- The `available_keys` computed at streamlit_app.py lines 9-13:
`list(st.secrets.keys())`, kept at its initial `[]` when that access
raises. -/
def available_keys (s : Secrets) : List String :=
  match secretsKeys s with
  | .ok ks => ks
  | .error _ => []

/-- Tier 1 block of streamlit_app._get_secrets (lines 16-20), without the
surrounding `try`: `some r` when the block returned record `r`, `none`
when it fell through, `error` when it raised. -/
def tier1_app (s : Secrets) : Except PyErr (Option PyVal) :=
  match secretsContains s "snowflake" with
  | .error e => .error e
  | .ok false => .ok none
  | .ok true =>
    match secretsGet s "snowflake" with
    | .error e => .error e
    | .ok v =>
      match pyToDict v with
      | .error e => .error e
      | .ok d => .ok (some (.pdict d))

/-- Tier 2 block of streamlit_app._get_secrets (lines 24-35), without the
surrounding `try`. -/
def tier2_app (s : Secrets) : Except PyErr (Option PyVal) :=
  match secretsContains s "connections" with
  | .error e => .error e
  | .ok false => .ok none
  | .ok true =>
    match secretsGet s "connections" with
    | .error e => .error e
    | .ok conns =>
      match pyContains conns "snowflake" with
      | .error e => .error e
      | .ok true =>
        match pyGetItem conns "snowflake" with
        | .error e => .error e
        | .ok v =>
          match pyToDict v with
          | .error e => .error e
          | .ok d => .ok (some (.pdict d))
      | .ok false =>
        if pyTruthy conns then
          match pyKeysMethod conns with
          | .error e => .error e
          | .ok [] => .error .stopIteration
          | .ok (first_key :: _) =>
            match pyGetItem conns first_key with
            | .error e => .error e
            | .ok v =>
              match pyToDict v with
              | .error e => .error e
              | .ok d => .ok (some (.pdict d))
        else
          .ok none

/-- streamlit_app._get_secrets (lines 7-52): tier 1 and tier 2 are each
wrapped in `try ... except Exception: pass`, so a block that raises is
treated exactly like one that fell through; tier 3 is the environment
fallback; otherwise a RuntimeError carrying the available keys. -/
def get_secrets_app (s : Secrets) (env : Env) : Except PyErr PyVal :=
  match tier1_app s with
  | .ok (some r) => .ok r
  | _ =>
    match tier2_app s with
    | .ok (some r) => .ok r
    | _ =>
      match tier3 env with
      | some e => .ok (.pdict e)
      | none => .error (.runtimeError (app_err_msg (available_keys s)))

/-- The environment fallback and final raise shared by every fall-through
path of snowflake_client._get_secrets (lines 23-38). -/
def client_env_fallback (env : Env) : Except PyErr PyVal :=
  match tier3 env with
  | some e => .ok (.pdict e)
  | none => .error (.runtimeError client_err_msg)

/-- snowflake_client._get_secrets (lines 7-38): no `try` wrappers, tier 2
guarded by `isinstance(conns, dict)`, records returned verbatim, fixed
failure message. -/
def get_secrets_client (s : Secrets) (env : Env) : Except PyErr PyVal :=
  match secretsContains s "snowflake" with
  | .error e => .error e
  | .ok true => secretsGet s "snowflake"
  | .ok false =>
    match secretsContains s "connections" with
    | .error e => .error e
    | .ok false => client_env_fallback env
    | .ok true =>
      match secretsGet s "connections" with
      | .error e => .error e
      | .ok conns =>
        match conns with
        | .pdict d =>
          if d.any (fun p => p.1 == "snowflake") then
            pyGetItem conns "snowflake"
          else if !d.isEmpty then
            firstDictValue d
          else
            client_env_fallback env
        | _ => client_env_fallback env

/-- Result set materialized by `cursor.fetch_pandas_all()`, modelled as
column names plus rows of string cells. -/
structure DataFrame where
  cols : List String
  rows : List (List String)

/-- pandas `df.empty`: true when either axis has length zero. -/
def DataFrame.pyEmpty (df : DataFrame) : Bool :=
  df.rows.isEmpty || df.cols.isEmpty

/-- Behaviour of a cursor obtained from the vendor connection: the
outcomes of `cur.execute(query)`, `cur.execute(query, params)` and
`cur.fetch_pandas_all()`, plus whether `cur.close()` raises. -/
structure Cursor where
  execPlain : Except PyErr Unit
  execParams : Except PyErr Unit
  fetchPandasAll : Except PyErr DataFrame
  closeRaises : Bool

/-- Behaviour of a vendor connection: the outcome of `conn.cursor()` and
whether `conn.close()` raises. -/
structure Conn where
  cursorResult : Except PyErr Cursor
  closeRaises : Bool

/-- Python truthiness of the `params` argument (None or a dict), as
tested by `if params:`. -/
def paramsTruthy : Option (List (String × String)) → Bool
  | none => false
  | some l => !l.isEmpty

/-- Observable outcome of one `run_query` call: the returned value or
re-raised exception, and whether each close routine was invoked. -/
structure RunOutcome where
  result : Except PyErr DataFrame
  cursorCloseCalled : Bool
  connCloseCalled : Bool

/-- run_query (streamlit_app.py lines 70-92 and, identically,
snowflake_client.py lines 56-78). `conn = get_connection()` runs before
the `try`, so a connection failure propagates with no close calls. Inside
the `try`, execute is called with params exactly when `params` is truthy,
then the result set is materialized. The `finally` block attempts
`cur.close()` and `conn.close()`, each inside `try ... except Exception:
pass`, so a close failure is discarded and the primary outcome (return
value or in-flight exception) is unchanged; when `conn.cursor()` itself
raised, the name `cur` is unbound and `cur.close()` raises a NameError
that the same `except` discards, so only `conn.close()` runs. -/
def run_query (connect : Except PyErr Conn)
    (params : Option (List (String × String))) : RunOutcome :=
  match connect with
  | .error e => ⟨.error e, false, false⟩
  | .ok conn =>
    let body : Except PyErr DataFrame × Bool :=
      match conn.cursorResult with
      | .error e => (.error e, false)
      | .ok cur =>
        match (if paramsTruthy params then cur.execParams else cur.execPlain) with
        | .error e => (.error e, true)
        | .ok _ =>
          match cur.fetchPandasAll with
          | .error e => (.error e, true)
          | .ok df => (.ok df, true)
    ⟨body.1, body.2, true⟩

/-- What the Run Query handler renders for one outcome. -/
inductive UIMessage where
  | successMsg (text : String) (df : DataFrame)
  | warningMsg (text : String)
  | errorMsg (text : String)

/-- Python `str(ex)` for the modelled exceptions. -/
def pyErrStr : PyErr → String
  | .keyError => "KeyError"
  | .typeError => "TypeError"
  | .valueError => "ValueError"
  | .attributeError => "AttributeError"
  | .stopIteration => "StopIteration"
  | .parseError => "ParseError"
  | .sqlError m => m
  | .connectError m => m
  | .runtimeError m => m

/-- The Run Query button handler (streamlit_app.py lines 118-134): an
exception becomes an inline error; an empty frame becomes a warning; a
non-empty frame becomes a success message with the record count (the
frame is then rendered and offered for CSV download). -/
def run_query_handler (outcome : Except PyErr DataFrame) : UIMessage :=
  match outcome with
  | .ok df =>
    if df.pyEmpty then
      .warningMsg "No results for this query."
    else
      .successMsg ("Loaded " ++ toString df.rows.length ++ " records.") df
  | .error ex => .errorMsg ("Query failed: " ++ pyErrStr ex)

/-- The slider constraint of streamlit_app.py line 112:
min_value=10, max_value=1000, step=10 (default value 100). -/
def slider_ok (v : Nat) : Prop :=
  10 ≤ v ∧ v ≤ 1000 ∧ v % 10 = 0

instance (v : Nat) : Decidable (slider_ok v) := by
  unfold slider_ok; infer_instance

/-- query_default (streamlit_app.py line 115): the f-string interpolating
the slider value. -/
def query_default (row_limit : Nat) : String :=
  "SELECT city, region, address, country FROM v_america LIMIT " ++
    toString row_limit

/-- A double-quote character (the CSV quote character). -/
def dquote : Char := Char.ofNat 34

/-- A carriage-return character. -/
def creturn : Char := Char.ofNat 13

/-- Characters that force pandas (QUOTE_MINIMAL) to quote a CSV field:
the separator, the quote character, and line terminators. -/
def fieldSpecial (a : Char) : Bool :=
  a == ',' || a == dquote || a == '\n' || a == creturn

/-- A field with no embedded newline. Such a field occupies a single
physical line of the CSV text; pandas quotes a field containing a
newline, so its raw text would span several physical lines. -/
def newlineFree (s : String) : Bool :=
  s.data.all (fun a => !(a == '\n'))

/-- Whether pandas quotes a field. -/
def needsQuote (s : String) : Bool :=
  s.data.any fieldSpecial

/-- CSV quoting: double every quote character. -/
def csvEscape : List Char → List Char
  | [] => []
  | c :: rest =>
    if c == dquote then dquote :: dquote :: csvEscape rest
    else c :: csvEscape rest

/-- One emitted CSV field. -/
def csvFieldChars (s : String) : List Char :=
  if needsQuote s then dquote :: (csvEscape s.data ++ [dquote]) else s.data

/-- Interpose a separator character between pieces. -/
def joinSep (c : Char) : List (List Char) → List Char
  | [] => []
  | [x] => x
  | x :: y :: rest => x ++ c :: joinSep c (y :: rest)

/-- One emitted CSV record: comma-separated fields plus the line
terminator. -/
def csvLineChars (fields : List String) : List Char :=
  joinSep ',' (fields.map csvFieldChars) ++ ['\n']

/-- df.to_csv(index=False) as called at streamlit_app.py line 128: the
header record followed by one record per row, each newline-terminated. -/
def to_csv (df : DataFrame) : String :=
  String.mk (csvLineChars df.cols ++ (df.rows.map csvLineChars).flatten)

/-- Split a character list at every occurrence of the separator. -/
def splitOnChar (c : Char) : List Char → List (List Char)
  | [] => [[]]
  | x :: xs =>
    if x == c then [] :: splitOnChar c xs
    else
      match splitOnChar c xs with
      | [] => [[x]]
      | g :: gs => (x :: g) :: gs

/-- The newline-terminated records of a CSV text (to_csv terminates every
record, so the final split piece is empty and dropped). -/
def csvLines (s : String) : List (List Char) :=
  (splitOnChar '\n' s.data).dropLast

/-- Parser state while scanning one CSV record: inside an unquoted
field, inside a quoted field, or just after a quote character inside a
quoted field (that quote is the closing quote or the first of a doubled
pair). -/
inductive CsvMode where
  | unquoted
  | quoted
  | afterQuote

/-- Scan one CSV record with standard quoting rules: a field beginning
with a quote is read up to its closing quote with doubled quotes
undoubled; a comma ends an unquoted field; the accumulated field is
emitted at each separator and at the end of the record. -/
def parseRec : CsvMode → List Char → List Char → List String
  | _, acc, [] => [String.mk acc]
  | .unquoted, acc, c :: rest =>
    if c == ',' then String.mk acc :: parseRec .unquoted [] rest
    else if c == dquote && acc.isEmpty then parseRec .quoted acc rest
    else parseRec .unquoted (acc ++ [c]) rest
  | .quoted, acc, c :: rest =>
    if c == dquote then parseRec .afterQuote acc rest
    else parseRec .quoted (acc ++ [c]) rest
  | .afterQuote, acc, c :: rest =>
    if c == dquote then parseRec .quoted (acc ++ [dquote]) rest
    else if c == ',' then String.mk acc :: parseRec .unquoted [] rest
    else parseRec .unquoted (acc ++ [c]) rest

/-- Modelled from the spec: the re-parser of the round-trip property
(spec section 8) — split the text into newline-terminated records, then
scan each record's comma-separated fields with standard CSV quoting,
matching the QUOTE_MINIMAL output that to_csv emits (quoted fields,
doubled quotes). -/
def parse_csv (s : String) : List (List String) :=
  (csvLines s).map (fun r => parseRec .unquoted [] r)

/-- Substring containment test (used to state facts about failure
messages). -/
def strContains (s sub : String) : Bool :=
  go sub.data s.data
where
  go (needle : List Char) : List Char → Bool
    | [] => needle.isEmpty
    | c :: rest => needle.isPrefixOf (c :: rest) || go needle rest

/-- Claim C1 (amended, streamlit_app.py part): every lookup/access failure
raised while probing tier 1 or tier 2 of streamlit_app._get_secrets is
swallowed: the resolver can only return a record or raise its final
RuntimeError, never a tier error; and a secrets store whose accesses all
raise resolves exactly like an empty store (every broken tier is treated
as absent and resolution falls through). -/
theorem tier_failures_swallowed_app (s : Secrets) (env : Env) (e : PyErr) :
    ((∃ r, get_secrets_app s env = .ok r) ∨
      get_secrets_app s env =
        .error (.runtimeError (app_err_msg (available_keys s)))) ∧
    get_secrets_app (.error e) env = get_secrets_app (.ok []) env := by
  refine ⟨?_, rfl⟩
  unfold get_secrets_app
  cases h1 : tier1_app s with
  | ok o1 =>
    cases o1 with
    | some r => exact Or.inl ⟨r, rfl⟩
    | none =>
      cases h2 : tier2_app s with
      | ok o2 =>
        cases o2 with
        | some r => exact Or.inl ⟨r, rfl⟩
        | none =>
          cases h3 : tier3 env with
          | some e3 => exact Or.inl ⟨_, rfl⟩
          | none => exact Or.inr rfl
      | error e2 =>
        cases h3 : tier3 env with
        | some e3 => exact Or.inl ⟨_, rfl⟩
        | none => exact Or.inr rfl
  | error e1 =>
    cases h2 : tier2_app s with
    | ok o2 =>
      cases o2 with
      | some r => exact Or.inl ⟨r, rfl⟩
      | none =>
        cases h3 : tier3 env with
        | some e3 => exact Or.inl ⟨_, rfl⟩
        | none => exact Or.inr rfl
    | error e2 =>
      cases h3 : tier3 env with
      | some e3 => exact Or.inl ⟨_, rfl⟩
      | none => exact Or.inr rfl

/-- Claim C1 counterexample: in snowflake_client._get_secrets there is no
try/except around the tier probes, so a secrets-store access failure
raised while probing tier 1 (`"snowflake" in st.secrets` on a store whose
accesses raise, e.g. malformed secrets.toml) propagates to the caller
instead of falling through to the environment tier. -/
theorem client_tier_failure_propagates :
    get_secrets_client (.error .parseError) (fun _ => none) =
      .error .parseError := rfl

/-- Claim C8: for every admissible slider value v, the default query is
the fixed prefix followed by the decimal rendering of v, and at the
default v = 100 it is exactly the expected string. -/
theorem default_query_string (v : Nat) (_h : slider_ok v) :
    query_default v =
      "SELECT city, region, address, country FROM v_america LIMIT " ++
        Nat.repr v ∧
    query_default 100 =
      "SELECT city, region, address, country FROM v_america LIMIT 100" :=
  ⟨rfl, rfl⟩

/-- Witness for default_query_string at the default slider value. -/
theorem default_query_string_witness :
    slider_ok 100 ∧
    query_default 100 =
      "SELECT city, region, address, country FROM v_america LIMIT 100" :=
  ⟨by decide, (default_query_string 100 (by decide)).2⟩

/-- Claim C10: calling run_query with an empty params mapping behaves
identically to calling it with params = None, because `if params:` tests
truthiness and both None and an empty dict are falsy, so the query runs
without parameter substitution in both cases. -/
theorem empty_params_same_as_none (connect : Except PyErr Conn) :
    run_query connect (some []) = run_query connect none ∧
    paramsTruthy (some []) = false ∧ paramsTruthy none = false :=
  ⟨rfl, rfl, rfl⟩

/-- Helper: shape of a run_query call whose connection was acquired and
whose cursor was created. -/
theorem run_query_cursor_ok (conn : Conn) (cur : Cursor)
    (params : Option (List (String × String)))
    (hcur : conn.cursorResult = .ok cur) :
    run_query (.ok conn) params =
      ⟨match (if paramsTruthy params then cur.execParams else cur.execPlain) with
        | .error e => .error e
        | .ok _ => cur.fetchPandasAll, true, true⟩ := by
  unfold run_query
  dsimp only
  rw [hcur]
  dsimp only
  rcases (if paramsTruthy params then cur.execParams else cur.execPlain) with e | u
  · rfl
  · rcases cur.fetchPandasAll with e | df <;> rfl

/-- Claim C2: with the connection acquired and the cursor created, both
close routines are invoked on every exit path (success, execute error,
materialization error), and the call's outcome is exactly the primary
outcome — the execute error, else the materialization result — so close
failures never mask it and the original exception propagates unchanged
with no retry; on a connection failure the exception propagates unchanged
before any close; and the outcome is independent of whether either close
routine raises. -/
theorem run_query_releases_resources (conn : Conn) (cur : Cursor)
    (params : Option (List (String × String)))
    (hcur : conn.cursorResult = .ok cur) :
    (run_query (.ok conn) params).cursorCloseCalled = true ∧
    (run_query (.ok conn) params).connCloseCalled = true ∧
    (run_query (.ok conn) params).result =
      (match (if paramsTruthy params then cur.execParams else cur.execPlain) with
        | .error e => .error e
        | .ok _ => cur.fetchPandasAll) ∧
    (∀ e, run_query (.error e) params = ⟨.error e, false, false⟩) ∧
    (∀ b₁ b₂ : Bool,
      (run_query
        (.ok ⟨.ok ⟨cur.execPlain, cur.execParams, cur.fetchPandasAll, b₁⟩, b₂⟩)
        params).result = (run_query (.ok conn) params).result) := by
  have h := run_query_cursor_ok conn cur params hcur
  refine ⟨by rw [h], by rw [h], by rw [h], fun e => rfl, fun b₁ b₂ => ?_⟩
  rw [h, run_query_cursor_ok _ ⟨cur.execPlain, cur.execParams, cur.fetchPandasAll, b₁⟩ params rfl]

/-- Witness for run_query_releases_resources: a connection whose execute
fails with a SQL error and whose closes both raise; the SQL error is
still the outcome and both closes are invoked. -/
theorem run_query_releases_resources_witness :
    (⟨.ok ⟨.error (.sqlError "boom"), .error (.sqlError "boom"),
        .ok ⟨[], []⟩, true⟩, true⟩ : Conn).cursorResult =
      .ok ⟨.error (.sqlError "boom"), .error (.sqlError "boom"),
        .ok ⟨[], []⟩, true⟩ ∧
    (run_query (.ok ⟨.ok ⟨.error (.sqlError "boom"), .error (.sqlError "boom"),
        .ok ⟨[], []⟩, true⟩, true⟩) none).cursorCloseCalled = true ∧
    (run_query (.ok ⟨.ok ⟨.error (.sqlError "boom"), .error (.sqlError "boom"),
        .ok ⟨[], []⟩, true⟩, true⟩) none).result = .error (.sqlError "boom") :=
  ⟨rfl,
   (run_query_releases_resources _ _ none rfl).1,
   ((run_query_releases_resources _ ⟨.error (.sqlError "boom"),
      .error (.sqlError "boom"), .ok ⟨[], []⟩, true⟩ none rfl).2.2.1)⟩

/-- Claim C7: when execution succeeds with zero result rows, run_query
returns the empty frame (not an error), and the Run Query handler reports
it as a warning, which is a different rendering than the failure
(errorMsg) case. -/
theorem zero_rows_reported_as_warning (conn : Conn) (cur : Cursor)
    (cols : List String) (hcur : conn.cursorResult = .ok cur)
    (hexec : cur.execPlain = .ok ()) (hfetch : cur.fetchPandasAll = .ok ⟨cols, []⟩) :
    (run_query (.ok conn) none).result = .ok ⟨cols, []⟩ ∧
    run_query_handler (run_query (.ok conn) none).result =
      .warningMsg "No results for this query." ∧
    ∀ t, run_query_handler (run_query (.ok conn) none).result ≠ .errorMsg t := by
  have hres : (run_query (.ok conn) none).result = .ok ⟨cols, []⟩ := by
    rw [run_query_cursor_ok conn cur none hcur]
    show (match (if paramsTruthy none then cur.execParams else cur.execPlain) with
          | Except.error e => Except.error e
          | Except.ok _ => cur.fetchPandasAll) = Except.ok ⟨cols, []⟩
    rw [show (if paramsTruthy none then cur.execParams else cur.execPlain) =
          cur.execPlain from rfl, hexec]
    exact hfetch
  refine ⟨hres, ?_, ?_⟩
  · rw [hres]
    rfl
  · rw [hres]
    intro t hcontra
    exact UIMessage.noConfusion hcontra

/-- Witness for zero_rows_reported_as_warning on a concrete connection
returning an empty four-column frame. -/
theorem zero_rows_reported_as_warning_witness :
    (run_query (.ok ⟨.ok ⟨.ok (), .ok (),
        .ok ⟨["city", "region", "address", "country"], []⟩, false⟩, false⟩)
      none).result = .ok ⟨["city", "region", "address", "country"], []⟩ ∧
    run_query_handler (run_query (.ok ⟨.ok ⟨.ok (), .ok (),
        .ok ⟨["city", "region", "address", "country"], []⟩, false⟩, false⟩)
      none).result = .warningMsg "No results for this query." :=
  ⟨(zero_rows_reported_as_warning _ _ _ rfl rfl rfl).1,
   (zero_rows_reported_as_warning _ ⟨.ok (), .ok (),
      .ok ⟨["city", "region", "address", "country"], []⟩, false⟩ _
      rfl rfl rfl).2.1⟩

/-- Helper: truthiness of an env-dict entry is the set-and-non-empty test
on the corresponding variable. -/
theorem pyTruthy_getenv (env : Env) (k : String) :
    pyTruthy (getenv env k) = envVarTruthy env k := by
  cases h : env k <;> simp [getenv, pyTruthy, envVarTruthy, h]

/-- Helper: tier 3 accepts the env dict exactly when the three required
variables are set and non-empty. -/
theorem tier3_eq (env : Env) :
    tier3 env =
      (if (envVarTruthy env "SNOWFLAKE_USER" &&
            envVarTruthy env "SNOWFLAKE_PASSWORD" &&
            envVarTruthy env "SNOWFLAKE_ACCOUNT") then
        some (env_record env)
      else
        none) := by
  unfold tier3
  dsimp only
  rw [show dictGet (env_record env) "user" = getenv env "SNOWFLAKE_USER" from rfl,
    show dictGet (env_record env) "password" = getenv env "SNOWFLAKE_PASSWORD" from rfl,
    show dictGet (env_record env) "account" = getenv env "SNOWFLAKE_ACCOUNT" from rfl,
    pyTruthy_getenv, pyTruthy_getenv, pyTruthy_getenv]

/-- Helper: on an empty store both tier-1 and tier-2 probes fall through,
leaving only the environment fallback. -/
theorem get_secrets_app_empty (env : Env) :
    get_secrets_app (.ok []) env =
      (match tier3 env with
        | some e => Except.ok (.pdict e)
        | none => Except.error (.runtimeError (app_err_msg []))) := rfl

/-- Helper: the client resolver on an empty store is the environment
fallback. -/
theorem get_secrets_client_empty (env : Env) :
    get_secrets_client (.ok []) env = client_env_fallback env := rfl

/-- Claim C5: with tiers 1 and 2 absent (empty secrets store), resolution
succeeds with the environment-derived record iff SNOWFLAKE_USER,
SNOWFLAKE_PASSWORD and SNOWFLAKE_ACCOUNT are all set and non-empty;
otherwise it fails with the RuntimeError (the ConfigurationError of the
spec), in both files. -/
theorem env_fallback_iff (env : Env) :
    (get_secrets_app (.ok []) env = .ok (.pdict (env_record env)) ↔
      (envVarTruthy env "SNOWFLAKE_USER" && envVarTruthy env "SNOWFLAKE_PASSWORD" &&
        envVarTruthy env "SNOWFLAKE_ACCOUNT") = true) ∧
    (get_secrets_client (.ok []) env = .ok (.pdict (env_record env)) ↔
      (envVarTruthy env "SNOWFLAKE_USER" && envVarTruthy env "SNOWFLAKE_PASSWORD" &&
        envVarTruthy env "SNOWFLAKE_ACCOUNT") = true) ∧
    ((envVarTruthy env "SNOWFLAKE_USER" && envVarTruthy env "SNOWFLAKE_PASSWORD" &&
        envVarTruthy env "SNOWFLAKE_ACCOUNT") = false →
      get_secrets_app (.ok []) env = .error (.runtimeError (app_err_msg [])) ∧
      get_secrets_client (.ok []) env = .error (.runtimeError client_err_msg)) := by
  have h3 := tier3_eq env
  cases hb : (envVarTruthy env "SNOWFLAKE_USER" && envVarTruthy env "SNOWFLAKE_PASSWORD" &&
      envVarTruthy env "SNOWFLAKE_ACCOUNT") with
  | true =>
    rw [hb, if_pos rfl] at h3
    refine ⟨?_, ?_, ?_⟩
    · rw [get_secrets_app_empty, h3]
      simp
    · rw [get_secrets_client_empty]
      unfold client_env_fallback
      rw [h3]
      simp
    · intro hcontra
      exact absurd hcontra (by simp)
  | false =>
    rw [hb, if_neg (by simp)] at h3
    refine ⟨?_, ?_, fun _ => ?_⟩
    · rw [get_secrets_app_empty, h3]
      simp
    · rw [get_secrets_client_empty]
      unfold client_env_fallback
      rw [h3]
      simp
    · constructor
      · rw [get_secrets_app_empty, h3]
      · rw [get_secrets_client_empty]
        unfold client_env_fallback
        rw [h3]

/-- Witness for env_fallback_iff: with no variables set, both resolvers
fail with their RuntimeError. -/
theorem env_fallback_iff_witness :
    (envVarTruthy (fun _ => none) "SNOWFLAKE_USER" &&
      envVarTruthy (fun _ => none) "SNOWFLAKE_PASSWORD" &&
      envVarTruthy (fun _ => none) "SNOWFLAKE_ACCOUNT") = false ∧
    get_secrets_app (.ok []) (fun _ => none) =
      .error (.runtimeError (app_err_msg [])) ∧
    get_secrets_client (.ok []) (fun _ => none) =
      .error (.runtimeError client_err_msg) :=
  ⟨rfl, ((env_fallback_iff (fun _ => none)).2.2 rfl).1,
    ((env_fallback_iff (fun _ => none)).2.2 rfl).2⟩

/-- Claim C3: with all three tiers simultaneously able to yield a record,
both resolvers return the tier-1 record; with tier 1 absent, the tier-2
record; with tiers 1 and 2 absent, the tier-3 record; and (no merging) any
record returned by the app resolver comes wholly from tier 1, tier 2, or
is the env record of tier 3. -/
theorem credential_priority_order (r1 r2 : List (String × PyVal)) (env : Env)
    (henv : tier3 env = some (env_record env)) :
    get_secrets_app (.ok [("snowflake", .pdict r1),
      ("connections", .pdict [("snowflake", .pdict r2)])]) env = .ok (.pdict r1) ∧
    get_secrets_client (.ok [("snowflake", .pdict r1),
      ("connections", .pdict [("snowflake", .pdict r2)])]) env = .ok (.pdict r1) ∧
    get_secrets_app (.ok [("connections", .pdict [("snowflake", .pdict r2)])])
      env = .ok (.pdict r2) ∧
    get_secrets_client (.ok [("connections", .pdict [("snowflake", .pdict r2)])])
      env = .ok (.pdict r2) ∧
    get_secrets_app (.ok []) env = .ok (.pdict (env_record env)) ∧
    get_secrets_client (.ok []) env = .ok (.pdict (env_record env)) ∧
    (∀ (s : Secrets) (r : PyVal), get_secrets_app s env = .ok r →
      tier1_app s = .ok (some r) ∨ tier2_app s = .ok (some r) ∨
        r = .pdict (env_record env)) := by
  refine ⟨rfl, rfl, rfl, rfl, ?_, ?_, ?_⟩
  · rw [get_secrets_app_empty, henv]
  · rw [get_secrets_client_empty]
    unfold client_env_fallback
    rw [henv]
  · intro s r h
    unfold get_secrets_app at h
    cases h1 : tier1_app s with
    | ok o1 =>
      cases o1 with
      | some r' =>
        rw [h1] at h
        dsimp only at h
        cases Except.ok.inj h
        exact Or.inl rfl
      | none =>
        rw [h1] at h
        cases h2 : tier2_app s with
        | ok o2 =>
          cases o2 with
          | some r' =>
            rw [h2] at h
            dsimp only at h
            cases Except.ok.inj h
            exact Or.inr (Or.inl rfl)
          | none =>
            rw [h2, henv] at h
            exact Or.inr (Or.inr (Except.ok.inj h).symm)
        | error e2 =>
          rw [h2, henv] at h
          exact Or.inr (Or.inr (Except.ok.inj h).symm)
    | error e1 =>
      rw [h1] at h
      cases h2 : tier2_app s with
      | ok o2 =>
        cases o2 with
        | some r' =>
          rw [h2] at h
          dsimp only at h
          cases Except.ok.inj h
          exact Or.inr (Or.inl rfl)
        | none =>
          rw [h2, henv] at h
          exact Or.inr (Or.inr (Except.ok.inj h).symm)
      | error e2 =>
        rw [h2, henv] at h
        exact Or.inr (Or.inr (Except.ok.inj h).symm)

/-- Witness for credential_priority_order on a concrete environment with
all three variables set. -/
theorem credential_priority_order_witness :
    tier3 (fun k => if k == "SNOWFLAKE_USER" then some "u"
        else if k == "SNOWFLAKE_PASSWORD" then some "p"
        else if k == "SNOWFLAKE_ACCOUNT" then some "a" else none) =
      some (env_record (fun k => if k == "SNOWFLAKE_USER" then some "u"
        else if k == "SNOWFLAKE_PASSWORD" then some "p"
        else if k == "SNOWFLAKE_ACCOUNT" then some "a" else none)) ∧
    get_secrets_app (.ok [("snowflake", .pdict [("user", .pstr "x")]),
        ("connections", .pdict [("snowflake", .pdict [("user", .pstr "y")])])])
      (fun k => if k == "SNOWFLAKE_USER" then some "u"
        else if k == "SNOWFLAKE_PASSWORD" then some "p"
        else if k == "SNOWFLAKE_ACCOUNT" then some "a" else none) =
      .ok (.pdict [("user", .pstr "x")]) :=
  ⟨rfl,
    (credential_priority_order [("user", .pstr "x")] [("user", .pstr "y")]
      (fun k => if k == "SNOWFLAKE_USER" then some "u"
        else if k == "SNOWFLAKE_PASSWORD" then some "p"
        else if k == "SNOWFLAKE_ACCOUNT" then some "a" else none) rfl).1⟩


/-- Helper: a successful first-match lookup makes the membership test
true. -/
theorem any_eq_true_of_lookup (d : List (String × PyVal)) (k : String)
    (v : PyVal) (h : lookupVal d k = some v) :
    d.any (fun p => p.1 == k) = true := by
  induction d with
  | nil => simp [lookupVal] at h
  | cons p rest ih =>
    rcases p with ⟨k', v'⟩
    cases hk : (k' == k) with
    | true => simp [List.any_cons, hk]
    | false =>
      rw [lookupVal, if_neg (by simp [hk])] at h
      simp [List.any_cons, hk, ih h]

/-- Helper: a failed lookup makes the membership test false. -/
theorem any_eq_false_of_lookup_none (d : List (String × PyVal)) (k : String)
    (h : lookupVal d k = none) :
    d.any (fun p => p.1 == k) = false := by
  induction d with
  | nil => rfl
  | cons p rest ih =>
    rcases p with ⟨k', v'⟩
    cases hk : (k' == k) with
    | true => rw [lookupVal, if_pos (by simp [hk])] at h; cases h
    | false =>
      rw [lookupVal, if_neg (by simp [hk])] at h
      simp [List.any_cons, hk, ih h]

/-- Claim C4: on a store whose only top-level key is the connections
table, both resolvers return the entry named "snowflake" whenever one
exists, whatever its position in the table order; and when no entry has
that name and the table is non-empty, both return the first entry in the
table's natural order. -/
theorem connections_table_choice (d : List (String × PyVal)) (env : Env)
    (r : List (String × PyVal)) :
    (lookupVal d "snowflake" = some (.pdict r) →
      get_secrets_app (.ok [("connections", .pdict d)]) env = .ok (.pdict r) ∧
      get_secrets_client (.ok [("connections", .pdict d)]) env = .ok (.pdict r)) ∧
    (∀ (k : String) (v : List (String × PyVal)) (rest : List (String × PyVal)),
      d = (k, .pdict v) :: rest → lookupVal d "snowflake" = none →
      get_secrets_app (.ok [("connections", .pdict d)]) env = .ok (.pdict v) ∧
      get_secrets_client (.ok [("connections", .pdict d)]) env = .ok (.pdict v)) := by
  constructor
  · intro h
    have hany := any_eq_true_of_lookup d "snowflake" _ h
    have ht2 : tier2_app (.ok [("connections", .pdict d)]) = .ok (some (.pdict r)) := by
      simp [tier2_app, secretsContains, secretsGet, lookupVal, pyContains,
        pyGetItem, pyToDict, hany, h]
    constructor
    · simp [get_secrets_app, tier1_app, secretsContains, ht2]
    · simp [get_secrets_client, secretsContains, secretsGet, lookupVal,
        pyGetItem, hany, h]
  · intro k v rest hd h
    subst hd
    have hany := any_eq_false_of_lookup_none _ "snowflake" h
    have ht2 : tier2_app (.ok [("connections",
        .pdict ((k, .pdict v) :: rest))]) = .ok (some (.pdict v)) := by
      simp [tier2_app, secretsContains, secretsGet, lookupVal, pyContains,
        pyGetItem, pyToDict, pyTruthy, pyKeysMethod, hany]
    constructor
    · simp [get_secrets_app, tier1_app, secretsContains, ht2]
    · simp [get_secrets_client, secretsContains, secretsGet, lookupVal,
        hany, firstDictValue]

/-- Witness for connections_table_choice: a table whose second entry is
named "snowflake" is chosen over the first. -/
theorem connections_table_choice_witness :
    lookupVal [("other", .pdict [("user", .pstr "x")]),
        ("snowflake", .pdict [("user", .pstr "y")])] "snowflake" =
      some (.pdict [("user", .pstr "y")]) ∧
    get_secrets_app (.ok [("connections",
        .pdict [("other", .pdict [("user", .pstr "x")]),
          ("snowflake", .pdict [("user", .pstr "y")])])]) (fun _ => none) =
      .ok (.pdict [("user", .pstr "y")]) :=
  ⟨rfl,
    ((connections_table_choice [("other", .pdict [("user", .pstr "x")]),
        ("snowflake", .pdict [("user", .pstr "y")])] (fun _ => none)
        [("user", .pstr "y")]).1 rfl).1⟩

/-- Helper: when no top-level key is named snowflake or connections, both
membership probes are false. -/
theorem anys_of_all_keys (d : List (String × PyVal))
    (hd : d.all (fun p => !(p.1 == "snowflake") && !(p.1 == "connections")) = true) :
    d.any (fun p => p.1 == "snowflake") = false ∧
    d.any (fun p => p.1 == "connections") = false := by
  simp only [List.all_eq_true, Bool.and_eq_true, Bool.not_eq_true'] at hd
  constructor
  · simp only [List.any_eq_false]
    intro x hx
    simp [(hd x hx).1]
  · simp only [List.any_eq_false]
    intro x hx
    simp [(hd x hx).2]

/-- Claim C6 (amended, streamlit_app.py part): when resolution fails, the
message of streamlit_app._get_secrets carries the interpolated list of
the available top-level secret keys, and with an empty store it renders
that list as "[]" (zero keys). -/
theorem failure_message_enumerates_keys (d : List (String × PyVal)) (env : Env)
    (hd : d.all (fun p => !(p.1 == "snowflake") && !(p.1 == "connections")) = true)
    (henv : tier3 env = none) :
    get_secrets_app (.ok d) env =
      .error (.runtimeError (app_err_msg (d.map Prod.fst))) ∧
    get_secrets_app (.ok []) env = .error (.runtimeError (app_err_msg [])) ∧
    pyReprStrList [] = "[]" := by
  obtain ⟨h1, h2⟩ := anys_of_all_keys d hd
  refine ⟨?_, ?_, rfl⟩
  · simp [get_secrets_app, tier1_app, tier2_app, secretsContains,
      available_keys, secretsKeys, h1, h2, henv]
  · rw [get_secrets_app_empty, henv]

/-- Witness for failure_message_enumerates_keys on a one-key store with
no environment variables. -/
theorem failure_message_enumerates_keys_witness :
    ([(("zz" : String), PyVal.pstr "x")].all
      (fun p => !(p.1 == "snowflake") && !(p.1 == "connections")) = true) ∧
    get_secrets_app (.ok [("zz", .pstr "x")]) (fun _ => none) =
      .error (.runtimeError (app_err_msg ["zz"])) :=
  ⟨by decide,
    (failure_message_enumerates_keys [("zz", .pstr "x")] (fun _ => none)
      (by decide) rfl).1⟩

/-- Claim C6 counterexample: snowflake_client._get_secrets raises a fixed
message: with the single available top-level key "zzkey" the failure
message does not mention it at all (while the streamlit_app message
does), so that resolver does not enumerate the available keys. -/
theorem client_message_lists_no_keys :
    get_secrets_client (.ok [("zzkey", .pstr "x")]) (fun _ => none) =
      .error (.runtimeError client_err_msg) ∧
    strContains client_err_msg "zzkey" = false ∧
    strContains (app_err_msg ["zzkey"]) "zzkey" = true := by
  refine ⟨rfl, ?_, ?_⟩ <;> decide

/-- Helper: splitting a separator-free list yields that single piece. -/
theorem splitOnChar_no_sep (c : Char) (l : List Char)
    (h : ∀ a ∈ l, (a == c) = false) : splitOnChar c l = [l] := by
  induction l with
  | nil => rfl
  | cons x xs ih =>
    rw [splitOnChar, if_neg (by simp [h x (by simp)]),
      ih (fun a ha => h a (by simp [ha]))]

/-- Helper: splitting peels off a separator-free prefix before a
separator. -/
theorem splitOnChar_append (c : Char) (l m : List Char)
    (h : ∀ a ∈ l, (a == c) = false) :
    splitOnChar c (l ++ c :: m) = l :: splitOnChar c m := by
  induction l with
  | nil => rw [List.nil_append, splitOnChar, if_pos (by simp)]
  | cons x xs ih =>
    rw [List.cons_append, splitOnChar, if_neg (by simp [h x (by simp)]),
      ih (fun a ha => h a (by simp [ha]))]

/-- Helper: splitting a concatenation of separator-terminated records
recovers the records plus a trailing empty piece. -/
theorem splitOnChar_lines (c : Char) (ls : List (List Char))
    (h : ∀ l ∈ ls, ∀ a ∈ l, (a == c) = false) :
    splitOnChar c ((ls.map (fun l => l ++ [c])).flatten) = ls ++ [[]] := by
  induction ls with
  | nil => rfl
  | cons l ls ih =>
    rw [List.map_cons, List.flatten_cons, List.append_assoc,
      show ([c] ++ (ls.map (fun l => l ++ [c])).flatten) =
        c :: (ls.map (fun l => l ++ [c])).flatten from rfl,
      splitOnChar_append c l _ (h l (by simp)),
      ih (fun x hx a ha => h x (by simp [hx]) a ha)]
    rfl

/-- Helper: splitting undoes joining with a separator when no piece
contains the separator. -/
theorem splitOnChar_joinSep (c : Char) (fs : List (List Char)) (hne : fs ≠ [])
    (h : ∀ f ∈ fs, ∀ a ∈ f, (a == c) = false) :
    splitOnChar c (joinSep c fs) = fs := by
  induction fs with
  | nil => exact absurd rfl hne
  | cons x fs ih =>
    cases fs with
    | nil => exact splitOnChar_no_sep c x (h x (by simp))
    | cons y rest =>
      rw [joinSep, splitOnChar_append c x _ (h x (by simp)),
        ih (by simp) (fun f hf a ha => h f (by simp [hf]) a ha)]

/-- Helper: membership in a joined list comes from the separator or from
one of the pieces. -/
theorem mem_joinSep (sep : Char) (pieces : List (List Char)) (a : Char)
    (ha : a ∈ joinSep sep pieces) : a = sep ∨ ∃ p ∈ pieces, a ∈ p := by
  induction pieces with
  | nil => simp [joinSep] at ha
  | cons x ps ih =>
    cases ps with
    | nil => exact Or.inr ⟨x, by simp, ha⟩
    | cons y rest =>
      rw [joinSep] at ha
      rcases List.mem_append.1 ha with h1 | h2
      · exact Or.inr ⟨x, by simp, h1⟩
      · rcases List.mem_cons.1 h2 with h3 | h4
        · exact Or.inl h3
        · rcases ih h4 with h5 | ⟨p, hp, hap⟩
          · exact Or.inl h5
          · exact Or.inr ⟨p, List.mem_cons_of_mem _ hp, hap⟩

/-- Helper: a character of an escaped field body is a character of the
field or the quote character. -/
theorem mem_csvEscape (l : List Char) (a : Char) (ha : a ∈ csvEscape l) :
    a ∈ l ∨ a = dquote := by
  induction l with
  | nil => simp [csvEscape] at ha
  | cons c l ih =>
    rw [csvEscape] at ha
    by_cases hc : (c == dquote) = true
    · rw [if_pos hc] at ha
      rcases List.mem_cons.1 ha with h | h
      · exact Or.inr h
      · rcases List.mem_cons.1 h with h2 | h2
        · exact Or.inr h2
        · rcases ih h2 with h3 | h3
          · exact Or.inl (List.mem_cons_of_mem _ h3)
          · exact Or.inr h3
    · rw [if_neg hc] at ha
      rcases List.mem_cons.1 ha with h | h
      · exact Or.inl (by simp [h])
      · rcases ih h with h3 | h3
        · exact Or.inl (List.mem_cons_of_mem _ h3)
        · exact Or.inr h3

/-- Helper: a non-special character is neither the separator nor the
quote character. -/
theorem not_comma_quote_of_not_special (a : Char) (h : fieldSpecial a = false) :
    (a == ',') = false ∧ (a == dquote) = false := by
  unfold fieldSpecial at h
  constructor
  · cases hc : (a == ',') with
    | false => rfl
    | true => rw [hc] at h; simp at h
  · cases hc : (a == dquote) with
    | false => rfl
    | true => rw [hc] at h; simp at h

/-- Helper: a newline-free field has only newline-free characters. -/
theorem newlineFree_chars (f : String) (h : newlineFree f = true) :
    ∀ a ∈ f.data, (a == '\n') = false := by
  unfold newlineFree at h
  simp only [List.all_eq_true, Bool.not_eq_true'] at h
  exact h

/-- Helper: consuming separator-free, quote-free characters in an
unquoted field appends them to the field accumulator. -/
theorem parseRec_unquoted_run (l : List Char) (acc r : List Char)
    (h : ∀ a ∈ l, fieldSpecial a = false) :
    parseRec .unquoted acc (l ++ r) = parseRec .unquoted (acc ++ l) r := by
  induction l generalizing acc with
  | nil => simp
  | cons c l ih =>
    obtain ⟨hcm, hcq⟩ := not_comma_quote_of_not_special c (h c (by simp))
    rw [List.cons_append,
      show parseRec .unquoted acc (c :: (l ++ r)) =
        parseRec .unquoted (acc ++ [c]) (l ++ r) from by simp [parseRec, hcm, hcq],
      ih (acc ++ [c]) (fun a ha => h a (by simp [ha])), List.append_assoc]
    rfl

/-- Helper: scanning the escaped body of a quoted field restores the
original field characters. -/
theorem parseRec_escape (l : List Char) (acc r : List Char) :
    parseRec .quoted acc (csvEscape l ++ r) = parseRec .quoted (acc ++ l) r := by
  induction l generalizing acc with
  | nil => simp [csvEscape]
  | cons c l ih =>
    by_cases hc : (c == dquote) = true
    · have hceq := eq_of_beq hc
      subst hceq
      rw [csvEscape, if_pos (by simp)]
      simp only [List.cons_append]
      rw [show parseRec .quoted acc (dquote :: dquote :: (csvEscape l ++ r)) =
            parseRec .quoted (acc ++ [dquote]) (csvEscape l ++ r) from by
          simp [parseRec],
        ih (acc ++ [dquote]), List.append_assoc]
      rfl
    · have hcf : (c == dquote) = false := by simpa using hc
      rw [csvEscape, if_neg hc]
      simp only [List.cons_append]
      rw [show parseRec .quoted acc (c :: (csvEscape l ++ r)) =
            parseRec .quoted (acc ++ [c]) (csvEscape l ++ r) from by
          simp [parseRec, hcf],
        ih (acc ++ [c]), List.append_assoc]
      rfl

/-- Helper: an emitted field followed by a separator parses back to that
field, leaving the rest of the record for the next field. -/
theorem parseRec_field_cons (f : String) (rest : List Char) :
    parseRec .unquoted [] (csvFieldChars f ++ ',' :: rest) =
      f :: parseRec .unquoted [] rest := by
  have hdq : (dquote == (',' : Char)) = false := by decide
  have hqd : (((',' : Char)) == dquote) = false := by decide
  by_cases hq : needsQuote f = true
  · rw [csvFieldChars, if_pos hq]
    simp only [List.cons_append, List.append_assoc, List.singleton_append,
      List.nil_append]
    rw [show parseRec .unquoted []
          (dquote :: (csvEscape f.data ++ (dquote :: ',' :: rest))) =
          parseRec .quoted [] (csvEscape f.data ++ (dquote :: ',' :: rest)) from by
        simp [parseRec, hdq],
      parseRec_escape,
      show parseRec .quoted ([] ++ f.data) (dquote :: ',' :: rest) =
          String.mk ([] ++ f.data) :: parseRec .unquoted [] rest from by
        simp [parseRec, hqd]]
    rfl
  · have hns : ∀ a ∈ f.data, fieldSpecial a = false := by
      have hqf : needsQuote f = false := by simpa using hq
      unfold needsQuote at hqf
      simp only [List.any_eq_false] at hqf
      intro a ha
      simpa using hqf a ha
    rw [csvFieldChars, if_neg hq, parseRec_unquoted_run f.data [] (',' :: rest) hns,
      show parseRec .unquoted ([] ++ f.data) (',' :: rest) =
        String.mk ([] ++ f.data) :: parseRec .unquoted [] rest from by
        simp [parseRec]]
    rfl

/-- Helper: an emitted field at the end of a record parses back to that
field. -/
theorem parseRec_field_end (f : String) :
    parseRec .unquoted [] (csvFieldChars f) = [f] := by
  have hdq : (dquote == (',' : Char)) = false := by decide
  by_cases hq : needsQuote f = true
  · rw [csvFieldChars, if_pos hq,
      show parseRec .unquoted [] (dquote :: (csvEscape f.data ++ [dquote])) =
          parseRec .quoted [] (csvEscape f.data ++ [dquote]) from by
        simp [parseRec, hdq],
      parseRec_escape,
      show parseRec .quoted ([] ++ f.data) [dquote] =
          [String.mk ([] ++ f.data)] from by simp [parseRec]]
    rfl
  · have hns : ∀ a ∈ f.data, fieldSpecial a = false := by
      have hqf : needsQuote f = false := by simpa using hq
      unfold needsQuote at hqf
      simp only [List.any_eq_false] at hqf
      intro a ha
      simpa using hqf a ha
    rw [csvFieldChars, if_neg hq, ← List.append_nil f.data,
      parseRec_unquoted_run f.data [] [] hns]
    rfl

/-- Helper: the emitted record of a non-empty field list parses back to
exactly those fields. -/
theorem parseRec_joinSep (fields : List String) (hne : fields ≠ []) :
    parseRec .unquoted [] (joinSep ',' (fields.map csvFieldChars)) = fields := by
  induction fields with
  | nil => exact absurd rfl hne
  | cons f fs ih =>
    cases fs with
    | nil => exact parseRec_field_end f
    | cons g rest =>
      rw [show joinSep ',' ((f :: g :: rest).map csvFieldChars) =
            csvFieldChars f ++ ',' :: joinSep ',' ((g :: rest).map csvFieldChars)
          from rfl,
        parseRec_field_cons, ih (by simp)]

/-- Helper: the emitted form of a newline-free field is newline-free
(quoting adds only quote characters). -/
theorem csvFieldChars_no_newline (f : String)
    (hnl : ∀ a ∈ f.data, (a == '\n') = false) :
    ∀ a ∈ csvFieldChars f, (a == '\n') = false := by
  unfold csvFieldChars
  by_cases hq : needsQuote f = true
  · rw [if_pos hq]
    intro a ha
    rcases List.mem_cons.1 ha with h | h
    · subst h; decide
    · rcases List.mem_append.1 h with h2 | h2
      · rcases mem_csvEscape f.data a h2 with h3 | h3
        · exact hnl a h3
        · subst h3; decide
      · rw [List.mem_singleton.1 h2]; decide
  · rw [if_neg hq]; exact hnl

/-- Claim C9: a result of N rows under the four expected columns, with
no embedded newline in any field (forced by the claim's own line count:
pandas quotes a newline-laden field, whose raw text then spans several
physical lines), serializes to exactly N+1 newline-terminated records
(header plus N rows), and re-parsing the CSV with standard quote-aware
parsing recovers exactly the header and the rows — including fields that
contain commas, quote characters or carriage returns, which to_csv
emits quoted. Hence the same row count and the same column set. -/
theorem csv_round_trip (rows : List (List String))
    (hnl : ∀ r ∈ rows, ∀ f ∈ r, newlineFree f = true)
    (hw : ∀ r ∈ rows, r.length = 4) :
    (csvLines (to_csv ⟨["city", "region", "address", "country"], rows⟩)).length =
      rows.length + 1 ∧
    parse_csv (to_csv ⟨["city", "region", "address", "country"], rows⟩) =
      ["city", "region", "address", "country"] :: rows := by
  have hcols : ∀ f ∈ (["city", "region", "address", "country"] : List String),
      newlineFree f = true := by decide
  have hall : ∀ fields ∈ ["city", "region", "address", "country"] :: rows,
      ∀ f ∈ fields, ∀ a ∈ f.data, (a == '\n') = false := by
    intro fields hf f hfm
    rcases List.mem_cons.1 hf with h | h
    · subst h
      exact newlineFree_chars f (hcols f hfm)
    · exact newlineFree_chars f (hnl fields h f hfm)
  have hne : ∀ fields ∈ ["city", "region", "address", "country"] :: rows,
      fields ≠ [] := by
    intro fields hf
    rcases List.mem_cons.1 hf with h | h
    · subst h; simp
    · have h4 := hw fields h
      intro hc
      simp [hc] at h4
  have hdata : (to_csv ⟨["city", "region", "address", "country"], rows⟩).data =
      (((["city", "region", "address", "country"] :: rows).map
        (fun fields => joinSep ',' (fields.map csvFieldChars))).map
          (fun l => l ++ ['\n'])).flatten := by
    rw [List.map_map]
    rfl
  have hbody : ∀ l ∈ (["city", "region", "address", "country"] :: rows).map
      (fun fields => joinSep ',' (fields.map csvFieldChars)),
      ∀ a ∈ l, (a == '\n') = false := by
    intro l hl a ha
    rcases List.mem_map.1 hl with ⟨fields, hfmem, rfl⟩
    rcases mem_joinSep ',' _ a ha with heq | ⟨p, hp, hap⟩
    · subst heq; decide
    · rcases List.mem_map.1 hp with ⟨f, hfm, rfl⟩
      exact csvFieldChars_no_newline f (hall fields hfmem f hfm) a hap
  have hlines : csvLines (to_csv ⟨["city", "region", "address", "country"], rows⟩) =
      (["city", "region", "address", "country"] :: rows).map
        (fun fields => joinSep ',' (fields.map csvFieldChars)) := by
    unfold csvLines
    rw [hdata, splitOnChar_lines '\n' _ hbody, List.dropLast_concat]
  constructor
  · rw [hlines, List.length_map, List.length_cons]
  · unfold parse_csv
    rw [hlines, List.map_map]
    have hpt : ∀ fields ∈ ["city", "region", "address", "country"] :: rows,
        ((fun r => parseRec .unquoted [] r) ∘
          (fun fields => joinSep ',' (fields.map csvFieldChars))) fields =
          id fields :=
      fun fields hf => parseRec_joinSep fields (hne fields hf)
    exact (List.map_congr_left hpt).trans (List.map_id _)

/-- Witness for csv_round_trip on a row whose fields exercise the quoted
cases: an embedded comma, an embedded quote character, an empty field and
a plain field. -/
theorem csv_round_trip_witness :
    (∀ r ∈ [["a, b", "c\"d", "", "plain"]], ∀ f ∈ r, newlineFree f = true) ∧
    parse_csv (to_csv ⟨["city", "region", "address", "country"],
        [["a, b", "c\"d", "", "plain"]]⟩) =
      [["city", "region", "address", "country"], ["a, b", "c\"d", "", "plain"]] :=
  ⟨by decide,
    (csv_round_trip [["a, b", "c\"d", "", "plain"]] (by decide) (by decide)).2⟩
